import Mathlib

/-!
Shallow embedding of the ingestion-and-dispatch pipeline of the
`rss-downloader` repository (src/rss_downloader), together with proofs
settling the specification claims about it.

Conventions of the embedding:
* Python machine state (the sqlite table, the in-memory config, the pattern
  cache, a client's cached session token) becomes explicit state passed to and
  returned from each function.
* Fallible operations return `Except`; operations the source forces to be
  total (all exceptions caught internally) return plain values.
* External effects whose outcome the source merely branches on (the HTTP
  response of a downloader RPC, a sqlite write failure, the result of pydantic
  validation) are passed in as oracle arguments, so every branch of the source
  is represented.
* Timestamps are `Nat`; log output is collected as `List String` (only the
  presence and rough identity of a log line matters to the claims, so each log
  site contributes a fixed string).
-/

namespace RssDL

/-! ### String search

`re.search` with the literal (metacharacter-free) patterns appearing in the
spec's examples coincides with substring search, embedded here executably. -/

/-- `leadMatch needle hay` is true when `needle` is an initial segment of `hay`. -/
def leadMatch : List Char → List Char → Bool
  | [], _ => true
  | _ :: _, [] => false
  | a :: as, b :: bs => a == b && leadMatch as bs

/-- `subMatch needle hay` is true when `needle` occurs contiguously in `hay`. -/
def subMatch (needle : List Char) : List Char → Bool
  | [] => leadMatch needle []
  | c :: rest => leadMatch needle (c :: rest) || subMatch needle rest

/-- Python `re.search(p, t) is not None` for a pattern `p` containing no regex
metacharacters: substring search of `p` inside `t`. -/
def literalSearch (p t : String) : Bool :=
  subMatch p.toList t.toList

/-! ### parser.RSSParser.match_filters

Translated from `parser.py` lines 54-72.  The regex-search primitive is a
parameter `search` (the source calls `pattern.search(title)` on compiled
`re.Pattern`s); the per-feed pattern lists are passed directly (the source
obtains them from the config through the version-keyed cache, modelled
separately below). -/

/-- Translation of `RSSParser.match_filters`: default-match when there are no
include patterns, otherwise any include pattern must match; any exclude match
rejects. -/
def matchFilters (search : String → String → Bool)
    (includePats excludePats : List String) (title : String) : Bool :=
  let isIncluded :=
    if includePats.isEmpty then true
    else includePats.any (fun p => search p title)
  if excludePats.any (fun p => search p title) then false else isIncluded

/-! ### database.Database and models.DownloadRecord -/

/-- The `downloader` column / `FeedConfig.downloader` selector. -/
inductive Downloader
  | aria2
  | qbittorrent
deriving DecidableEq

/-- Translation of `models.DownloadRecord` / one row of the `downloads` table.
`status`: 0 failure, 1 success.  `mode`: 0 automatic, 1 manual redownload. -/
structure Rec where
  id : Nat
  title : String
  url : String
  downloadUrl : String
  feedName : String
  feedUrl : String
  publishedTime : Nat
  downloadTime : Nat
  downloader : Downloader
  status : Nat
  mode : Nat
deriving DecidableEq

/-- The sqlite `downloads` table: rows plus the AUTOINCREMENT counter that
assigns `lastrowid`. -/
structure DB where
  rows : List Rec
  nextId : Nat
deriving DecidableEq

/-- Translation of `Database.is_downloaded`: `SELECT COUNT(*) ... WHERE
status = 1 and download_url = ?` compared with 0. -/
def isDownloaded (db : DB) (url : String) : Bool :=
  db.rows.any (fun r => r.status == 1 && r.downloadUrl == url)

/-- The log line emitted by `Database.insert` on a storage failure. -/
def dbErrLog : String := "添加下载记录失败"

/-- Translation of `Database.insert`: the whole body is wrapped in a
catch-all `except`, so the function is total — on a storage failure (oracle
`storageFail`) it logs and returns the sentinel id 0 with the table unchanged;
otherwise the row is appended with the assigned `lastrowid`, which is
returned. -/
def insertRec (db : DB) (r : Rec) (storageFail : Bool) : Nat × DB × List String :=
  if storageFail then (0, db, [dbErrLog])
  else (db.nextId, ⟨db.rows ++ [{ r with id := db.nextId }], db.nextId + 1⟩, [])

/-- Translation of `Database.search_download_by_id`: first row with that id. -/
def searchById (db : DB) (i : Nat) : Option Rec :=
  db.rows.find? (fun r => r.id == i)

/-! ### main.RSSDownloader

`_send_to_downloader` branches on the configured client and the outcome of its
`add_link` call; all failure shapes (aria2 JSON-RPC `error` field, qBittorrent
`False`, a raised exception, an unavailable client) set `status = False`, so a
single boolean oracle `dispatchOk` per download URL captures the response,
with `avail` for the client-configured check (an unavailable client performs
no network call).  The record is inserted regardless of the outcome, and
`DownloaderError` is raised (here: `ok = false`) exactly when the dispatch
failed; `process_feed` catches it and keeps iterating. -/

/-- The item dict handed to `_send_to_downloader`
(`item.model_dump() | {"feed_name": ..., "feed_url": ...}`). -/
structure ItemData where
  title : String
  url : String
  downloadUrl : String
  feedName : String
  feedUrl : String
  publishedTime : Nat
deriving DecidableEq

/-- Result of one `_send_to_downloader` call: the database afterwards, whether
the dispatch succeeded (no `DownloaderError`), the `add_link` network calls
made, and the ledger log lines. -/
structure SendResult where
  db : DB
  ok : Bool
  calls : List String
  logs : List String
deriving DecidableEq

/-- Translation of `RSSDownloader._send_to_downloader`. -/
def sendToDownloader (db : DB) (item : ItemData) (dl : Downloader) (mode : Nat)
    (avail : Bool) (dispatchOk storageFail : String → Bool) (now : Nat) :
    SendResult :=
  let status := avail && dispatchOk item.downloadUrl
  let calls := if avail then [item.downloadUrl] else []
  let newRec : Rec :=
    { id := 0, title := item.title, url := item.url,
      downloadUrl := item.downloadUrl, feedName := item.feedName,
      feedUrl := item.feedUrl, publishedTime := item.publishedTime,
      downloadTime := now, downloader := dl,
      status := if status then 1 else 0, mode := mode }
  let ins := insertRec db newRec (storageFail item.downloadUrl)
  { db := ins.2.1, ok := status, calls := calls, logs := ins.2.2 }

/-- Aggregate state of the `process_feed` item loop: database, count of
successful dispatches, `add_link` calls made. -/
structure FeedRun where
  db : DB
  success : Nat
  calls : List String
deriving DecidableEq

/-- Translation of the item loop of `RSSDownloader.process_feed` (lines
132-147): skip when `is_downloaded`, otherwise dispatch with mode 0, counting
successes and swallowing `DownloaderError` per item. -/
def processItems (db : DB) (items : List ItemData) (dl : Downloader)
    (avail : Bool) (dispatchOk storageFail : String → Bool) (now : Nat) :
    FeedRun :=
  match items with
  | [] => { db := db, success := 0, calls := [] }
  | item :: rest =>
    if isDownloaded db item.downloadUrl then
      processItems db rest dl avail dispatchOk storageFail now
    else
      let sr := sendToDownloader db item dl 0 avail dispatchOk storageFail now
      let r := processItems sr.db rest dl avail dispatchOk storageFail now
      { db := r.db, success := (if sr.ok then 1 else 0) + r.success,
        calls := sr.calls ++ r.calls }

/-- The two error kinds `RSSDownloader.redownload` raises before dispatching:
`ItemNotFoundError` and `ValueError`. -/
inductive RedlErr
  | notFound
  | valueError
deriving DecidableEq

/-- Translation of `RSSDownloader.redownload`: look up the record by id
(`ItemNotFoundError` when absent), require a non-empty stored download URL
(`ValueError` — Python falsiness of the empty string), then re-dispatch the
stored fields through `_send_to_downloader` with `mode=1`. -/
def redownload (db : DB) (i : Nat) (dl : Downloader) (avail : Bool)
    (dispatchOk storageFail : String → Bool) (now : Nat) :
    Except RedlErr SendResult :=
  match searchById db i with
  | none => .error .notFound
  | some r =>
    if r.downloadUrl = "" then .error .valueError
    else
      .ok (sendToDownloader db
        { title := r.title, url := r.url, downloadUrl := r.downloadUrl,
          feedName := r.feedName, feedUrl := r.feedUrl,
          publishedTime := r.publishedTime }
        dl 1 avail dispatchOk storageFail now)

/-- Network calls performed by a `redownload` invocation: an error outcome was
raised before any `add_link` call. -/
def redlCalls : Except RedlErr SendResult → List String
  | .error _ => []
  | .ok sr => sr.calls

/-! ### parser.RSSParser.parse_feed

Translated from `parser.py` lines 74-137 as the source stands: the function
returns only the filtered item list (`[]` on a parse error or an empty feed),
not a `(total, items)` pair.  The feedparser result is embedded as `Fetch`;
per-feed include/exclude patterns are passed directly. -/

/-- One element of `entry.links` as feedparser exposes it: a dict with
optional `type` and `href` keys. -/
structure FLink where
  ltype : Option String
  href : Option String
deriving DecidableEq

/-- One feed entry, with every attribute optional, mirroring the source's
`hasattr` guards (`title`, `link`, `id`, `links`, `published_parsed`). -/
structure FeedEntry where
  title : Option String
  elink : Option String
  eid : Option String
  links : Option (List FLink)
  published : Option Nat
deriving DecidableEq

/-- The feedparser result: `bozo` flag, entry list, and whether channel
metadata (`feed.feed`) is present. -/
structure Fetch where
  bozo : Bool
  entries : List FeedEntry
  hasChannel : Bool
deriving DecidableEq

/-- The item dict `parse_feed` appends for a matched entry. -/
structure OutItem where
  title : String
  url : Option String
  downloadUrl : Option String
  feedName : String
  feedUrl : String
  publishedTime : Nat
deriving DecidableEq

/-- The `for link in entry.links` scan for a bittorrent-typed enclosure. -/
def findTorrentLink : List FLink → Option FLink
  | [] => none
  | l :: rest =>
    if l.ltype == some "application/x-bittorrent" then some l
    else findTorrentLink rest

/-- URL extraction of `parse_feed` lines 98-110: with a `links` attribute, a
bittorrent enclosure gives `(entry.link, href)`, the `for`-`else` fallback
gives `(entry.id, entry.link)`; without a `links` attribute both stay `None`. -/
def extractUrls (e : FeedEntry) : Option String × Option String :=
  match e.links with
  | none => (none, none)
  | some ls =>
    match findTorrentLink ls with
    | some l => (e.elink, l.href)
    | none => (e.eid, e.elink)

/-- Translation of `RSSParser.parse_feed` as written in the source: returns
the bare filtered list; a bozo feed, or one with no entries and no channel
metadata, yields `[]` after logging.  `now` is the parse-time clock used when
`published_parsed` is absent; the truthiness test `if title` also drops an
empty title. -/
def parseFeed (search : String → String → Bool)
    (includePats excludePats : List String) (feedName feedUrl : String)
    (now : Nat) (f : Fetch) : List OutItem :=
  if f.bozo then []
  else if f.entries.isEmpty && !f.hasChannel then []
  else
    f.entries.filterMap (fun e =>
      match e.title with
      | none => none
      | some t =>
        if t.isEmpty then none
        else if matchFilters search includePats excludePats t then
          some { title := t, url := (extractUrls e).1,
                 downloadUrl := (extractUrls e).2,
                 feedName := feedName, feedUrl := feedUrl,
                 publishedTime := e.published.getD now }
        else none)

/-! ### config.ConfigManager

`_deep_merge` is translated over a JSON-like value type.  Pydantic validation
(`Config.parse_obj`) and serialization (`Config.dict()`) are oracle
parameters: the claims under verification quantify over their outcome rather
than over pydantic's internals. -/

/-- A YAML/JSON value as `_deep_merge` manipulates it. -/
inductive JVal where
  | jstr (v : String)
  | jnum (v : Int)
  | jbool (v : Bool)
  | jnull
  | jarr (l : List JVal)
  | jobj (l : List (String × JVal))

/-- `dict.get` on the insert-ordered dict model. -/
def lookupJ : List (String × JVal) → String → Option JVal
  | [], _ => none
  | (k', v') :: rest, k => if k' == k then some v' else lookupJ rest k

/-- `result[k] = v` on the insert-ordered dict model: update in place, or
append a fresh key. -/
def setKey : List (String × JVal) → String → JVal → List (String × JVal)
  | [], k, v => [(k, v)]
  | (k', v') :: rest, k, v =>
    if k' == k then (k', v) :: rest else (k', v') :: setKey rest k v

/-- Translation of `config._deep_merge`: start from the default dict, fold the
user dict over it, recursing when both sides hold a dict at the key. -/
def deepMergeObj (acc : List (String × JVal)) :
    List (String × JVal) → List (String × JVal)
  | [] => acc
  | (k, v) :: rest =>
    let newV : JVal :=
      match v, lookupJ acc k with
      | .jobj uo, some (.jobj ao) => .jobj (deepMergeObj ao uo)
      | _, _ => v
    deepMergeObj (setKey acc k newV) rest
termination_by l => sizeOf l
decreasing_by
  all_goals simp_wf
  all_goals omega

/-- Translation of `models.FeedConfig` (the fields the core reads). -/
structure FeedCfg where
  name : String
  url : String
  includePats : List String
  excludePats : List String
  downloader : Downloader
deriving DecidableEq

/-- Translation of `models.Config` restricted to the field the verified
operations read (`feeds`); the remaining sections (`log`, `web`, back-end
connection settings) are opaque to every claim below. -/
structure Cfg where
  feeds : List FeedCfg
deriving DecidableEq

/-- Translation of `ConfigManager.get_feed_patterns`: rules of the first feed
with that name, `([], [])` when absent. -/
def getFeedPatterns (c : Cfg) (feedName : String) : List String × List String :=
  match c.feeds.find? (fun f => f.name == feedName) with
  | some f => (f.includePats, f.excludePats)
  | none => ([], [])

/-- Translation of `ConfigManager.get_feed_downloader`: downloader of the
first feed with that name, `aria2` when absent. -/
def getFeedDownloader (c : Cfg) (feedName : String) : Downloader :=
  match c.feeds.find? (fun f => f.name == feedName) with
  | some f => f.downloader
  | none => .aria2

/-- In-memory state of `ConfigManager` as `update` and
`get_config_version` see it: the validated config and `_config_version`. -/
structure MgrState where
  config : Cfg
  version : Nat
deriving DecidableEq

/-- The log line of `ConfigManager.update`'s `except` branch. -/
def updateErrLog : String := "更新配置文件时发生错误"

/-- Translation of `ConfigManager.update`: deep-merge the partial data into
the current config's dump, validate the merge (`parse`, modelling
`Config.parse_obj`: `none` = pydantic raises); commit on success, otherwise
log and restore the prior config.  The source's `update` returns `None` — it
has no error channel, which is why the result carries only the new state and
the logs.  `_config_version` is not touched on either path. -/
def updateCfg (dump : Cfg → List (String × JVal))
    (parse : List (String × JVal) → Option Cfg)
    (s : MgrState) (newData : List (String × JVal)) : MgrState × List String :=
  match parse (deepMergeObj (dump s.config) newData) with
  | some c => ({ config := c, version := s.version }, [])
  | none => ({ config := s.config, version := s.version }, [updateErrLog])

/-! ### The file watcher (`ConfigManager._start_watcher`)

One iteration of the `watch` loop, driven by the observed mtime and the
outcome of `_load_or_create`.  The loop's `try` catches only
`FileNotFoundError`; a reload whose YAML load or pydantic validation raises
escapes the loop (`escaped = true`).  In every such case the assignment
`self._config = self._load_or_create()` has not yet happened, so config,
version and `_last_mtime` are all unchanged. -/

/-- State the watcher mutates: config, `_config_version`, `_last_mtime`. -/
structure WatchState where
  config : Cfg
  version : Nat
  lastMtime : Nat
deriving DecidableEq

/-- Outcome of `_load_or_create` inside the watcher: a valid config, a
validation/parse exception, or `FileNotFoundError`. -/
inductive LoadOutcome
  | ok (c : Cfg)
  | invalid
  | missing
deriving DecidableEq

/-- Result of one watcher iteration. -/
structure WatchResult where
  state : WatchState
  escaped : Bool
  logs : List String
deriving DecidableEq

/-- The log line of a successful hot reload. -/
def reloadLog : String := "配置文件已重新加载"

/-- Translation of one iteration of the `watch` closure in
`ConfigManager._start_watcher` (lines 170-182). -/
def watchStep (s : WatchState) (mtime : Nat) (load : LoadOutcome) : WatchResult :=
  if mtime == s.lastMtime then { state := s, escaped := false, logs := [] }
  else
    match load with
    | .ok c =>
      { state := { config := c, version := s.version + 1, lastMtime := mtime },
        escaped := false, logs := [reloadLog] }
    | .missing => { state := s, escaped := false, logs := [] }
    | .invalid => { state := s, escaped := true, logs := [] }

/-! ### The pattern cache (`RSSParser._get_patterns_for_feed`)

The `lru_cache` keyed by `(feed_name, config_version)`, modelled as an
association list; `match_filters` queries it with the manager's current
version.  The source's capacity bound of 32 with least-recently-used eviction
only ever removes entries — it never substitutes a stale value for a hit — so
it is not modelled; the theorems below hypothesise the entry's presence. -/

/-- A cached pattern-pair entry keyed by `(feed_name, config_version)`. -/
abbrev PatCache := List ((String × Nat) × (List String × List String))

/-- Lookup in the memoization table. -/
def lookupCache : PatCache → String × Nat → Option (List String × List String)
  | [], _ => none
  | (k, v) :: rest, key => if k = key then some v else lookupCache rest key

/-- Translation of the memoized `RSSParser._get_patterns_for_feed` as
`match_filters` invokes it: key on the feed name and the manager's current
version; on a miss, compile from the current config and memoize. -/
def getPatternsForFeed (cache : PatCache) (s : MgrState) (feedName : String) :
    (List String × List String) × PatCache :=
  match lookupCache cache (feedName, s.version) with
  | some v => (v, cache)
  | none =>
    (getFeedPatterns s.config feedName,
      ((feedName, s.version), getFeedPatterns s.config feedName) :: cache)

/-! ### qBittorrent client construction (`downloaders.QBittorrentClient`)

`_login`'s entire body sits in a `try` whose handlers catch
`RequestException` and then `Exception` and only log — including the
authentication-failure `raise` inside the same `try` — so `_login` returns
normally on every input and `__init__`'s own `except` branch (the one that
would raise `ConnectionError`) is unreachable.  The login HTTP outcome is the
oracle `LoginResp`. -/

/-- Outcome of the login POST: a transport-level `RequestException`, or a
response body. -/
inductive LoginResp
  | transportErr
  | body (text : String)
deriving DecidableEq

/-- Python `str.strip()`: drop whitespace from both ends. -/
def stripChars (l : List Char) : List Char :=
  ((l.dropWhile Char.isWhitespace).reverse.dropWhile Char.isWhitespace).reverse

/-- Python `str.lower()` on the ASCII bodies involved here. -/
def lowerChars (l : List Char) : List Char :=
  l.map Char.toLower

/-- The check `response.text.strip().lower() == "ok."`. -/
def bodyIsOk (t : String) : Bool :=
  lowerChars (stripChars t.toList) == "ok.".toList

/-- Translation of `QBittorrentClient._login`: total; returns its log lines. -/
def qbLogin : LoginResp → List String
  | .transportErr => ["qBittorrent 登录请求失败"]
  | .body t =>
    if bodyIsOk t then ["qBittorrent 登录成功"]
    else ["qBittorrent 登录失败: 登录认证失败"]

/-- The guest-mode log line of `__init__` (emitted via `logger.info`). -/
def qbGuestLog : String :=
  "qBittorrent 未配置用户名和密码，将以游客模式连接 (可能无法添加任务)"

/-- Translation of `QBittorrentClient.__init__` (credentials already reduced
to strings, Python-falsy as `""`): an `Except` result so that "the
constructor raises" is expressible — the error branch exists in the source
but, `_login` being total, is never taken. -/
def qbInit (username password : String) (resp : LoginResp) :
    Except String (List String) :=
  if username = "" ∨ password = "" then .ok [qbGuestLog]
  else .ok (qbLogin resp ++ ["qBittorrent 登录成功"])

/-! ### Transmission client (spec-modelled) -/

/-- Modelled from the spec: the repository's `TransmissionClient` (imported by
`tests/test_downloaders.py` from `rss_downloader.downloaders`) is absent from
`src/`, which holds only the Aria2 and qBittorrent clients.  Per §4.5/§6 of
the spec, a Transmission RPC response is either a success payload or a `409`
whose header carries the server's current expected session id. -/
inductive TResp
  | ok (result : String)
  | conflict (sessionId : String)
deriving DecidableEq

/-- Modelled from the spec: outcome of one `TransmissionClient` RPC call —
the cached session token afterwards, the surfaced result or error, and how
many HTTP attempts were made. -/
structure TCallResult where
  token : String
  outcome : Except String String
  attempts : Nat

/-- Modelled from the spec: one Transmission RPC call.  The request is sent
with the cached token; on `409` the client updates its cached token from the
response header and transparently retries the same request exactly once,
surfacing an error only if the retry is also rejected (updating the token
again from that response).  `respond`/`retryRespond` give the server's answer
to each attempt as a function of the presented token. -/
def rpcCall (cached : String) (respond retryRespond : String → TResp) :
    TCallResult :=
  match respond cached with
  | .ok r => { token := cached, outcome := .ok r, attempts := 1 }
  | .conflict h =>
    match retryRespond h with
    | .ok r => { token := h, outcome := .ok r, attempts := 2 }
    | .conflict h2 =>
      { token := h2, outcome := .error "session conflict", attempts := 2 }

/-- Modelled from the spec: a Transmission server holding one expected session
id — a presented token equal to it yields the RPC result, anything else
yields `409` carrying the expected id. -/
def transmissionServer (expected result : String) (token : String) : TResp :=
  if token == expected then .ok result else .conflict expected

/-! ### Concrete fixtures used by witnesses and counterexamples -/

/-- A success record for the download URL `"magnet:a"`. -/
def recW : Rec :=
  { id := 1, title := "Ep01", url := "https://ex.com/p/1",
    downloadUrl := "magnet:a", feedName := "F", feedUrl := "https://ex.com/rss",
    publishedTime := 5, downloadTime := 6, downloader := .aria2,
    status := 1, mode := 0 }

/-- A ledger already holding `recW`. -/
def dbW : DB := { rows := [recW], nextId := 2 }

/-- An item whose download URL repeats `recW`'s. -/
def itemW : ItemData :=
  { title := "Ep01 repost", url := "https://ex.com/p/2",
    downloadUrl := "magnet:a", feedName := "F", feedUrl := "https://ex.com/rss",
    publishedTime := 9 }

/-- An empty validated config. -/
def cfgW : Cfg := { feeds := [] }

/-- A record whose stored download URL is empty, for the redownload witness. -/
def recEmptyUrl : Rec :=
  { id := 3, title := "broken", url := "https://ex.com/p/3",
    downloadUrl := "", feedName := "F", feedUrl := "https://ex.com/rss",
    publishedTime := 5, downloadTime := 6, downloader := .aria2,
    status := 0, mode := 0 }

/-- Ledger for the redownload witness: ids 1 and 3 exist, id 5 does not. -/
def dbRedl : DB := { rows := [recW, recEmptyUrl], nextId := 4 }

/-- The three entries of the test suite's `SAMPLE_RSS_XML`, as feedparser
presents them: two complete entries (whose single `<link>` appears as a
`text/html` link) and one carrying only a title. -/
def sampleEntries : List FeedEntry :=
  [ { title := some "[Test] Success Case 1",
      elink := some "https://example.com/download/1.torrent",
      eid := some "https://example.com/page/1",
      links := some [{ ltype := some "text/html",
                       href := some "https://example.com/download/1.torrent" }],
      published := some 100 },
    { title := some "[Test] Filtered Case 2",
      elink := some "https://example.com/download/2.torrent",
      eid := some "https://example.com/page/2",
      links := some [{ ltype := some "text/html",
                       href := some "https://example.com/download/2.torrent" }],
      published := some 100 },
    { title := some "Invalid Case 3", elink := none, eid := none,
      links := none, published := none } ]

/-- A well-formed fetch of the three sample entries. -/
def sampleFetch : Fetch :=
  { bozo := false, entries := sampleEntries, hasChannel := true }

/-- A malformed feed (`feed.bozo` set). -/
def bozoFetch : Fetch :=
  { bozo := true, entries := [], hasChannel := false }

/-- An empty response: no entries and no channel metadata. -/
def emptyFetch : Fetch :=
  { bozo := false, entries := [], hasChannel := false }

/-! ## Theorems -/

/-- Helper: `match_filters` as a single boolean expression. -/
theorem matchFilters_eq_bool (search : String → String → Bool)
    (inc exc : List String) (title : String) :
    matchFilters search inc exc title =
      ((inc.isEmpty || inc.any fun p => search p title) &&
        !(exc.any fun p => search p title)) := by
  unfold matchFilters
  by_cases hA : exc.any (fun p => search p title) = true <;>
    by_cases hI : inc.isEmpty <;> simp [hA, hI]

/-- C1: dedup is idempotent.  `is_downloaded u` is true iff the ledger holds a
record with download URL `u` and status success; and when an item's download
URL is already recorded as a success, `process_feed`'s loop over `item :: rest`
equals the loop over `rest` alone — no `add_link` call is made for the item,
no second `DownloadRecord` is inserted, and nothing is counted. -/
theorem dedup_idempotent (db : DB) (u : String) (item : ItemData)
    (rest : List ItemData) (dl : Downloader) (avail : Bool)
    (dispatchOk storageFail : String → Bool) (now : Nat) :
    (isDownloaded db u = true ↔ ∃ r ∈ db.rows, r.status = 1 ∧ r.downloadUrl = u)
    ∧ (isDownloaded db item.downloadUrl = true →
        processItems db (item :: rest) dl avail dispatchOk storageFail now
          = processItems db rest dl avail dispatchOk storageFail now) := by
  constructor
  · simp [isDownloaded, List.any_eq_true]
  · intro h
    simp [processItems, h]

/-- Witness for C1: a ledger holding a success record for `"magnet:a"` makes
processing an item with that download URL a no-op. -/
theorem dedup_idempotent_witness :
    processItems dbW [itemW] .aria2 true (fun _ => true) (fun _ => false) 7
      = processItems dbW [] .aria2 true (fun _ => true) (fun _ => false) 7 :=
  (dedup_idempotent dbW "magnet:a" itemW [] .aria2 true (fun _ => true)
      (fun _ => false) 7).2 (by decide)

/-- C2: Transmission session renewal — every call makes at most two HTTP
attempts (one retry); a client holding a stale token gets `409`, updates its
token from the response header, retries once, and the retried call succeeds
with no error surfaced; and a call that did surface an error still leaves the
renewed token cached, so the next call against the same server succeeds on
its first attempt — failure state does not persist across calls. -/
theorem transmission_session_renewal (cached expected result : String)
    (respond retryRespond : String → TResp) :
    (rpcCall cached respond retryRespond).attempts ≤ 2
    ∧ (cached ≠ expected →
        rpcCall cached (transmissionServer expected result)
            (transmissionServer expected result)
          = { token := expected, outcome := .ok result, attempts := 2 })
    ∧ (∀ e, (rpcCall cached respond (transmissionServer expected result)).outcome
          = .error e →
        rpcCall (rpcCall cached respond (transmissionServer expected result)).token
            (transmissionServer expected result) (transmissionServer expected result)
          = { token := expected, outcome := .ok result, attempts := 1 }) := by
  refine ⟨?_, ?_, ?_⟩
  · unfold rpcCall
    cases h1 : respond cached with
    | ok r => simp [h1]
    | conflict h =>
      cases h2 : retryRespond h with
      | ok r => simp [h1, h2]
      | conflict h2' => simp [h1, h2]
  · intro hne
    simp [rpcCall, transmissionServer, hne]
  · intro e
    cases h1 : respond cached with
    | ok r => simp [rpcCall, h1]
    | conflict h =>
      by_cases hh : h = expected
      · simp [rpcCall, transmissionServer, h1, hh]
      · simp [rpcCall, transmissionServer, h1, hh]

/-- Witness for C2: a stale token `"stale"` against a server expecting
`"sess1"` is renewed and the retried call succeeds. -/
theorem transmission_session_renewal_witness :
    rpcCall "stale" (transmissionServer "sess1" "success")
        (transmissionServer "sess1" "success")
      = { token := "sess1", outcome := .ok "success", attempts := 2 } :=
  (transmission_session_renewal "stale" "sess1" "success"
      (transmissionServer "sess1" "success")
      (transmissionServer "sess1" "success")).2.1 (by decide)

/-- C3 counterexample: an invalid reload attempt produces no log line — the
watcher suppresses only `FileNotFoundError`, and a validation failure escapes
the loop — refuting the claim's "a reload that fails validation is logged". -/
theorem watch_invalid_reload_unlogged :
    (watchStep { config := cfgW, version := 0, lastMtime := 0 } 1 .invalid).logs
      = []
    ∧ (watchStep { config := cfgW, version := 0, lastMtime := 0 } 1
        .invalid).escaped = true := by
  constructor <;> rfl

/-- C3 (amended): a reload that passes validation increments the version by
exactly one and installs the new config; a reload attempt that fails
validation is discarded — version, config and mtime all unchanged, previous
valid config still active — but without any log line. -/
theorem watch_version_monotone (s : WatchState) (mtime : Nat) (c : Cfg)
    (h : mtime ≠ s.lastMtime) :
    (watchStep s mtime (.ok c)).state.version = s.version + 1
    ∧ (watchStep s mtime (.ok c)).state.config = c
    ∧ (watchStep s mtime .invalid).state = s
    ∧ (watchStep s mtime .invalid).logs = [] := by
  have hb : (mtime == s.lastMtime) = false := by simp [h]
  refine ⟨?_, ?_, ?_, ?_⟩ <;> simp [watchStep, hb]

/-- Witness for C3's amended claim at a concrete state. -/
theorem watch_version_monotone_witness :
    (watchStep { config := cfgW, version := 3, lastMtime := 0 } 1
        (.ok cfgW)).state.version = 4 :=
  (watch_version_monotone { config := cfgW, version := 3, lastMtime := 0 } 1
      cfgW (by decide)).1

/-- C4: evaluation of the source's `parse_feed` exhibiting the divergence —
on a well-formed three-entry feed it returns a bare filtered list (here a
single item) carrying no pre-filter total count, and on a malformed feed or
an empty one it returns `[]`, not the pair `(0, [])` that the claim, the test
suite (`total, matched = await parser.parse_feed(...)`, `total == 3`) and the
caller `process_feed` (which unpacks a 2-tuple) all require. -/
theorem parse_feed_returns_bare_list :
    parseFeed literalSearch ["Success"] [] "TestFeed" "http://test.com/rss" 0
        sampleFetch
      = [{ title := "[Test] Success Case 1",
           url := some "https://example.com/page/1",
           downloadUrl := some "https://example.com/download/1.torrent",
           feedName := "TestFeed", feedUrl := "http://test.com/rss",
           publishedTime := 100 }]
    ∧ parseFeed literalSearch ["Success"] [] "TestFeed" "http://test.com/rss" 0
        bozoFetch = []
    ∧ parseFeed literalSearch ["Success"] [] "TestFeed" "http://test.com/rss" 0
        emptyFetch = [] := by
  refine ⟨by decide, rfl, rfl⟩

/-- C5: evaluation of `QBittorrentClient.__init__` — with credentials supplied
and a login response body other than `"Ok."`, construction still succeeds,
because `_login` catches its own authentication exception and only logs (the
constructor even logs a success line afterwards); construction never fails on
any input; the credential-less path succeeds with the guest-mode log.  This
contradicts the claim (and `test_qb_create_login_fail_auth`), which require a
non-`"Ok."` body to make construction fail permanently. -/
theorem qb_init_never_fails :
    qbInit "admin" "password" (.body "Fails.")
      = .ok ["qBittorrent 登录失败: 登录认证失败", "qBittorrent 登录成功"]
    ∧ (∀ u p resp, ∃ logs, qbInit u p resp = .ok logs)
    ∧ qbInit "" "secret" (.body "whatever") = .ok [qbGuestLog] := by
  refine ⟨rfl, ?_, rfl⟩
  intro u p resp
  unfold qbInit
  by_cases h : u = "" ∨ p = ""
  · simp only [if_pos h]
    exact ⟨_, rfl⟩
  · simp only [if_neg h]
    exact ⟨_, rfl⟩

/-- C6: `ConfigManager.update` deep-merges the partial data into the current
config's dump, validates the merge, and commits only when validation
succeeds; when validation fails the prior valid config is retained unchanged
— but the error is merely logged: the result carries no error value (the
source's `update` returns `None`), against the claim's "returns the
validation error to the caller". -/
theorem update_commit_or_retain (dump : Cfg → List (String × JVal))
    (parse : List (String × JVal) → Option Cfg) (s : MgrState)
    (newData : List (String × JVal)) :
    (∀ c, parse (deepMergeObj (dump s.config) newData) = some c →
        updateCfg dump parse s newData
          = ({ config := c, version := s.version }, []))
    ∧ (parse (deepMergeObj (dump s.config) newData) = none →
        updateCfg dump parse s newData = (s, [updateErrLog])) := by
  constructor
  · intro c hc
    simp [updateCfg, hc]
  · intro hn
    simp [updateCfg, hn]

/-- Witness for C6: an update whose merged result fails validation leaves the
manager state untouched and yields only a log line, no error value. -/
theorem update_commit_or_retain_witness :
    updateCfg (fun _ => []) (fun _ => none) { config := cfgW, version := 2 }
        [("web", .jobj [("port", .jstr "not-a-number")])]
      = ({ config := cfgW, version := 2 }, [updateErrLog]) :=
  (update_commit_or_retain (fun _ => []) (fun _ => none)
      { config := cfgW, version := 2 }
      [("web", .jobj [("port", .jstr "not-a-number")])]).2 rfl

/-- C7: `match_filters` returns true iff (the include list is empty, or some
include pattern search-matches the title) and no exclude pattern matches; and
with the spec's literal patterns (for which regex search coincides with
substring search) the four concrete examples behave as claimed. -/
theorem match_filters_spec :
    (∀ (search : String → String → Bool) (inc exc : List String)
        (title : String),
      matchFilters search inc exc title = true ↔
        ((inc = [] ∨ ∃ p ∈ inc, search p title = true)
          ∧ ∀ p ∈ exc, search p title = false))
    ∧ matchFilters literalSearch ["1080p", "CHS"] ["720p", "Eng"]
        "[Anime] Ep01 [1080p][CHS]" = true
    ∧ matchFilters literalSearch ["1080p", "CHS"] ["720p", "Eng"]
        "[Anime] Ep03 [1080p][Eng]" = false
    ∧ matchFilters literalSearch [] ["Test"] "Normal Title" = true
    ∧ matchFilters literalSearch [] ["Test"] "A Test Title" = false := by
  refine ⟨?_, by decide, by decide, by decide, by decide⟩
  intro search inc exc title
  rw [matchFilters_eq_bool]
  simp [List.any_eq_true, List.isEmpty_iff, Bool.not_eq_true, List.any_eq_false]

/-- C8: `Database.insert` never raises — on a storage failure it logs the
error and returns the sentinel id 0 with the table unchanged; on success it
returns exactly the id assigned to the newly appended record. -/
theorem insert_contract (db : DB) (r : Rec) :
    insertRec db r true = (0, db, [dbErrLog])
    ∧ (insertRec db r false).1 = db.nextId
    ∧ (insertRec db r false).2.1.rows
        = db.rows ++ [{ r with id := (insertRec db r false).1 }]
    ∧ (insertRec db r false).2.2 = [] :=
  ⟨rfl, rfl, rfl, rfl⟩

/-- C9: `redownload` yields the not-found error kind when no record carries
the id, and the value error when the stored download URL is empty — in both
error cases no `add_link` network call is made — and otherwise it
re-dispatches the stored fields through the same `_send_to_downloader` path
tagged with manual mode 1. -/
theorem redownload_contract (db : DB) (i : Nat) (dl : Downloader)
    (avail : Bool) (dispatchOk storageFail : String → Bool) (now : Nat) :
    ((∀ r ∈ db.rows, r.id ≠ i) →
      redownload db i dl avail dispatchOk storageFail now = .error .notFound)
    ∧ (∀ r, searchById db i = some r → r.downloadUrl = "" →
        redownload db i dl avail dispatchOk storageFail now
          = .error .valueError)
    ∧ (∀ e, redownload db i dl avail dispatchOk storageFail now = .error e →
        redlCalls (redownload db i dl avail dispatchOk storageFail now) = [])
    ∧ (∀ r, searchById db i = some r → r.downloadUrl ≠ "" →
        redownload db i dl avail dispatchOk storageFail now
          = .ok (sendToDownloader db
              { title := r.title, url := r.url, downloadUrl := r.downloadUrl,
                feedName := r.feedName, feedUrl := r.feedUrl,
                publishedTime := r.publishedTime }
              dl 1 avail dispatchOk storageFail now)) := by
  refine ⟨?_, ?_, ?_, ?_⟩
  · intro h
    have hn : searchById db i = none := by
      simp only [searchById, List.find?_eq_none]
      intro r hr
      simpa using h r hr
    simp [redownload, hn]
  · intro r hr hurl
    simp [redownload, hr, hurl]
  · intro e he
    rw [he]
    rfl
  · intro r hr hurl
    simp [redownload, hr, hurl]

/-- Witness for C9: in a concrete ledger, an absent id yields not-found and a
record with an empty stored URL yields the value error. -/
theorem redownload_contract_witness :
    redownload dbRedl 5 .aria2 true (fun _ => true) (fun _ => false) 7
      = .error .notFound
    ∧ redownload dbRedl 3 .aria2 true (fun _ => true) (fun _ => false) 7
      = .error .valueError :=
  ⟨(redownload_contract dbRedl 5 .aria2 true (fun _ => true) (fun _ => false)
      7).1 (by decide),
   (redownload_contract dbRedl 3 .aria2 true (fun _ => true) (fun _ => false)
      7).2.1 recEmptyUrl (by decide) (by decide)⟩

/-- C10: `update` leaves the config version unchanged on both its success and
failure paths — only the watcher reload increments it — so a pattern-cache
entry keyed by `(feedName, currentVersion)` is still hit after an in-process
update: the lookup returns the patterns cached from the pre-update rules and
the cache is not modified. -/
theorem update_preserves_pattern_cache (dump : Cfg → List (String × JVal))
    (parse : List (String × JVal) → Option Cfg) (s : MgrState)
    (newData : List (String × JVal)) (cache : PatCache) (f : String)
    (pats : List String × List String) :
    (updateCfg dump parse s newData).1.version = s.version
    ∧ (lookupCache cache (f, s.version) = some pats →
        getPatternsForFeed cache (updateCfg dump parse s newData).1 f
          = (pats, cache)) := by
  have hv : (updateCfg dump parse s newData).1.version = s.version := by
    unfold updateCfg
    cases parse (deepMergeObj (dump s.config) newData) <;> rfl
  refine ⟨hv, ?_⟩
  intro hc
  unfold getPatternsForFeed
  rw [hv, hc]

/-- Witness for C10: a cached entry for feed `"F"` at version 2 is served
unchanged after an update that replaces the feed's rules. -/
theorem update_preserves_pattern_cache_witness :
    getPatternsForFeed [(("F", 2), (["1080p"], ["720p"]))]
        (updateCfg (fun _ => []) (fun _ => some cfgW)
          { config := cfgW, version := 2 } []).1 "F"
      = ((["1080p"], ["720p"]), [(("F", 2), (["1080p"], ["720p"]))]) :=
  (update_preserves_pattern_cache (fun _ => []) (fun _ => some cfgW)
      { config := cfgW, version := 2 } [] [(("F", 2), (["1080p"], ["720p"]))]
      "F" (["1080p"], ["720p"])).2 (by decide)

end RssDL
